import Mathlib

/-!
# Verification of the service-checker cloud function

A shallow embedding of `src/service-checker/index.js` (the Datastore-backed
checker: retry/backoff probe loops, the failure/recovery transition pass in
`sendEmails`, and the `checkServices` orchestrator), together with theorems
settling the specified properties.

Modelling conventions:
* JS numbers used as counters are `Int`; timestamps (`new Date()`) are `Nat`
  (the pass is parameterised by the current time `now`).
* The transient `service.failed` field is `Option Bool`: `none` is the JS
  `undefined` (the field is absent until a probe sets it, and is deleted by
  `updateServices` before write-back); JS truthiness of the field is `truthy`.
* Network I/O is an oracle: each probe attempt's outcome is drawn from a
  function `Nat → outcome` giving the result of the i-th attempt.
* `await new Promise(resolve => setTimeout(resolve, d))` backoff sleeps are
  recorded as a list of the waited durations, in order.
* The Datastore `save` call may fail; `checkServicesRun` takes a `saveOk`
  flag.  In the JS, a rejected `datastore.save` propagates out of the
  handler (there is no try/catch around `updateServices`), so the
  `res.status(200).send()` line is never reached: this is modelled by the
  `response`/`saved` fields of `RunResult` being `none` in that case.
-/

/-- `RETRY_COUNT = 3` in the source. -/
def RETRY_COUNT : Nat := 3

/-- `RETRY_BACKOFF_MS = 2000` in the source. -/
def RETRY_BACKOFF_MS : Nat := 2000

/-- `TIMEOUT_MS = 5000` in the source. -/
def TIMEOUT_MS : Nat := 5000

/-- Outcome of one probe retry loop: the final value of the transient
`failed` flag, the number of attempts actually made, and the list of backoff
sleeps performed (in ms, in order). -/
structure RetryResult where
  failed : Bool
  attempts : Nat
  sleeps : List Nat
deriving DecidableEq, Repr

/-- The body of the shared retry loop
`for (let i = 1; i <= RETRY_COUNT; i++) { ...attempt...; if (!service.failed) break; await sleep(i * RETRY_BACKOFF_MS); }`.
`af i = true` means the i-th attempt's verdict is "failed"; `failed` is the
current value of the transient flag (set to `false` before the loop),
`i` the loop counter, `remaining` the number of iterations the loop may
still run (`RETRY_COUNT - i + 1`). -/
def retryLoopGo (af : Nat → Bool) (failed : Bool) (i : Nat) : Nat → RetryResult
  | 0 => ⟨failed, 0, []⟩
  | r + 1 =>
    if af i = false then
      ⟨false, 1, []⟩
    else
      let rest := retryLoopGo af true (i + 1) r
      ⟨rest.failed, rest.attempts + 1, i * RETRY_BACKOFF_MS :: rest.sleeps⟩

/-- The retry loop as run by each probe: `service.failed = false` first, then
the loop from `i = 1` for at most `RETRY_COUNT` iterations. -/
def runRetryLoop (af : Nat → Bool) : RetryResult :=
  retryLoopGo af false 1 RETRY_COUNT

/-- Outcome of one HTTP GET attempt as the `catch` in `getEndpoint` sees it:
either some response arrived carrying a status code (axios resolves for 2xx
and rejects with `error.response` populated otherwise), or no response at
all (connection-level error, axios timeout, or cancellation — in every such
case `error.response` is undefined). -/
inductive HttpOutcome
  | response (status : Nat)
  | noResponse
deriving DecidableEq, Repr

/-- Verdict of one GET attempt.  A 2xx resolves with `service.failed = false`;
in the catch block, `if (error.response && error.response.status < 500)` the
flag is cleared, otherwise set.  Net effect: a response classifies by
`status < 500`, no response is a failure. -/
def httpAttemptFailed : HttpOutcome → Bool
  | .response status => if status < 500 then false else true
  | .noResponse => true

/-- Outcome of one `ping.promise.probe` attempt in `pingEndpoint`: the
library reported `alive`, or the call threw. -/
inductive PingOutcome
  | probeResult (alive : Bool)
  | probeError
deriving DecidableEq, Repr

/-- Verdict of one ping attempt: `service.failed = !pingResult.alive`, a
thrown error sets the flag. -/
def pingAttemptFailed : PingOutcome → Bool
  | .probeResult alive => !alive
  | .probeError => true

/-- Outcome of one raw-socket attempt in `socketEndpoint`: the `connect`
event fired (the promise resolves), the `timeout` event fired, or the
`error` event fired (the promise rejects). -/
inductive SocketOutcome
  | connected
  | timedOut
  | connectError
deriving DecidableEq, Repr

/-- Verdict of one socket attempt: resolve clears the flag, any rejection
sets it. -/
def socketAttemptFailed : SocketOutcome → Bool
  | .connected => false
  | .timedOut => true
  | .connectError => true

/-- A `ServiceCheckerService` record, as loaded from Datastore plus the
transient `failed` flag set during probing (`none` = JS `undefined`). -/
structure Service where
  id : Nat
  name : String
  endpoint : String
  port : Nat
  action : String
  enabled : Bool
  failed : Option Bool
  triggered : Bool
  alertCount : Int
  lastAlertDate : Option Nat
  lastSuccessDate : Option Nat
deriving DecidableEq, Repr

/-- JS truthiness of the transient `failed` field (`undefined` is falsy). -/
def truthy : Option Bool → Bool
  | some b => b
  | none => false

/-- `delete service.failed` as performed by `updateServices` before save. -/
def stripFailed (s : Service) : Service :=
  { s with failed := none }

/-- `getEndpoint(service)`: run the retry loop over GET attempts and leave
the final verdict in the transient flag. -/
def getEndpoint (att : Nat → HttpOutcome) (s : Service) : Service × RetryResult :=
  let r := runRetryLoop (fun i => httpAttemptFailed (att i))
  ({ s with failed := some r.failed }, r)

/-- `pingEndpoint(service)`: the same retry loop over ping attempts. -/
def pingEndpoint (att : Nat → PingOutcome) (s : Service) : Service × RetryResult :=
  let r := runRetryLoop (fun i => pingAttemptFailed (att i))
  ({ s with failed := some r.failed }, r)

/-- `socketEndpoint(service)`: the same retry loop over socket attempts. -/
def socketEndpoint (att : Nat → SocketOutcome) (s : Service) : Service × RetryResult :=
  let r := runRetryLoop (fun i => socketAttemptFailed (att i))
  ({ s with failed := some r.failed }, r)

/-- One iteration of the `for (const service of services)` loop in
`sendEmails`: the (possibly mutated) service, its contribution to
`failedServices`, and its contribution to `recoveredServices`. -/
def transitionStep (now : Nat) (s : Service) : Service × List String × List String :=
  if !s.enabled then
    (s, [], [])
  else if truthy s.failed && !s.triggered then
    ({ s with lastAlertDate := some now, triggered := true,
              alertCount := s.alertCount + 1 }, [s.name], [])
  else if !(truthy s.failed) then
    if s.triggered then
      ({ s with lastSuccessDate := some now, triggered := false }, [], [s.name])
    else
      ({ s with lastSuccessDate := some now }, [], [])
  else
    (s, [], [])

/-- Result of the transition pass: mutated services in order, the
`failedServices` name list, the `recoveredServices` name list. -/
structure TransitionResult where
  services : List Service
  failedNames : List String
  recoveredNames : List String
deriving DecidableEq, Repr

/-- The state-transition pass of `sendEmails(services)` (the subsequent
mail dispatch has its errors caught and does not touch service state). -/
def sendEmails (now : Nat) : List Service → TransitionResult
  | [] => ⟨[], [], []⟩
  | s :: rest =>
    let step := transitionStep now s
    let t := sendEmails now rest
    ⟨step.1 :: t.services, step.2.1 ++ t.failedNames, step.2.2 ++ t.recoveredNames⟩

/-- Per-service network oracles: the outcome of the i-th attempt of each
protocol, for this service. -/
structure Oracles where
  http : Nat → HttpOutcome
  ping : Nat → PingOutcome
  sock : Nat → SocketOutcome

/-- The probe-dispatch arm of `checkServices` for one service: disabled
services are skipped, the `action` switch selects a probe, and the default
arm sets `enabled = false` without probing.  `none` in the second component
means no probe was attempted. -/
def probeService (oracle : Service → Oracles) (s : Service) : Service × Option RetryResult :=
  if !s.enabled then
    (s, none)
  else if s.action = "GET" then
    let p := getEndpoint (oracle s).http s
    (p.1, some p.2)
  else if s.action = "PING" then
    let p := pingEndpoint (oracle s).ping s
    (p.1, some p.2)
  else if s.action = "SOCKET" then
    let p := socketEndpoint (oracle s).sock s
    (p.1, some p.2)
  else
    ({ s with enabled := false }, none)

/-- Outcome of one `checkServices` invocation: the in-memory services after
the transition pass, the two alert name lists, the records written back by
`updateServices` (`none` when the save failed), and the HTTP status sent to
the trigger (`none` when `res.status(200).send()` was never reached). -/
structure RunResult where
  services : List Service
  failedNames : List String
  recoveredNames : List String
  saved : Option (List Service)
  response : Option Nat
deriving DecidableEq, Repr

/-- `checkServices(req, res)`: load the snapshot (given as `services`),
probe every enabled service (each probe mutates only its own service, so
the concurrent fan-out/join is a map), run the transition pass, then
`updateServices` (strip the transient flag and save) and answer 200.  A
save failure (`saveOk = false`) propagates out of the handler before the
response line. -/
def checkServicesRun (oracle : Service → Oracles) (now : Nat) (saveOk : Bool)
    (services : List Service) : RunResult :=
  let probed := services.map (fun s => (probeService oracle s).1)
  let t := sendEmails now probed
  if saveOk then
    ⟨t.services, t.failedNames, t.recoveredNames,
      some (t.services.map stripFailed), some 200⟩
  else
    ⟨t.services, t.failedNames, t.recoveredNames, none, none⟩

/-! ## Helper lemmas about the transition pass -/

theorem sendEmails_nil (now : Nat) : sendEmails now [] = ⟨[], [], []⟩ :=
  rfl

theorem sendEmails_cons (now : Nat) (s : Service) (rest : List Service) :
    sendEmails now (s :: rest) =
      ⟨(transitionStep now s).1 :: (sendEmails now rest).services,
       (transitionStep now s).2.1 ++ (sendEmails now rest).failedNames,
       (transitionStep now s).2.2 ++ (sendEmails now rest).recoveredNames⟩ :=
  rfl

theorem sendEmails_append (now : Nat) (l1 l2 : List Service) :
    sendEmails now (l1 ++ l2) =
      ⟨(sendEmails now l1).services ++ (sendEmails now l2).services,
       (sendEmails now l1).failedNames ++ (sendEmails now l2).failedNames,
       (sendEmails now l1).recoveredNames ++ (sendEmails now l2).recoveredNames⟩ := by
  induction l1 with
  | nil => simp [sendEmails_nil]
  | cons s rest ih => simp [sendEmails_cons, ih]

theorem transitionStep_name_mem (now : Nat) (s : Service) (x : String) :
    (x ∈ (transitionStep now s).2.1 ∨ x ∈ (transitionStep now s).2.2) → x = s.name := by
  unfold transitionStep
  split
  · simp
  · split
    · simp
    · split
      · split <;> simp
      · simp

theorem sendEmails_names_sub (now : Nat) (l : List Service) (x : String)
    (hx : ∀ s ∈ l, s.name ≠ x) :
    x ∉ (sendEmails now l).failedNames ∧ x ∉ (sendEmails now l).recoveredNames := by
  induction l with
  | nil => simp [sendEmails_nil]
  | cons s rest ih =>
    have hs : s.name ≠ x := hx s (List.mem_cons_self s rest)
    have hrest := ih (fun t ht => hx t (List.mem_cons_of_mem s ht))
    simp only [sendEmails_cons, List.mem_append]
    constructor
    · rintro (h | h)
      · exact hs (transitionStep_name_mem now s x (Or.inl h)).symm
      · exact hrest.1 h
    · rintro (h | h)
      · exact hs (transitionStep_name_mem now s x (Or.inr h)).symm
      · exact hrest.2 h

theorem transitionStep_ongoing (now : Nat) (s : Service)
    (h1 : s.enabled = true) (h2 : s.failed = some true) (h3 : s.triggered = true) :
    transitionStep now s = (s, [], []) := by
  simp [transitionStep, truthy, h1, h2, h3]

theorem transitionStep_newFailure (now : Nat) (s : Service)
    (h1 : s.enabled = true) (h2 : s.failed = some true) (h3 : s.triggered = false) :
    transitionStep now s =
      ({ s with lastAlertDate := some now, triggered := true,
                alertCount := s.alertCount + 1 }, [s.name], []) := by
  simp [transitionStep, truthy, h1, h2, h3]

theorem transitionStep_success (now : Nat) (s : Service)
    (h1 : s.enabled = true) (h2 : s.failed = some false) :
    transitionStep now s =
      (if s.triggered then
        ({ s with lastSuccessDate := some now, triggered := false }, [], [s.name])
      else
        ({ s with lastSuccessDate := some now }, [], [])) := by
  cases h3 : s.triggered <;> simp [transitionStep, truthy, h1, h2, h3]

theorem transitionStep_disabled (now : Nat) (s : Service) (h : s.enabled = false) :
    transitionStep now s = (s, [], []) := by
  simp [transitionStep, h]

theorem sendEmails_middle (now : Nat) (pre post : List Service) (s : Service) :
    sendEmails now (pre ++ s :: post) =
      ⟨(sendEmails now pre).services
         ++ (transitionStep now s).1 :: (sendEmails now post).services,
       (sendEmails now pre).failedNames
         ++ (transitionStep now s).2.1 ++ (sendEmails now post).failedNames,
       (sendEmails now pre).recoveredNames
         ++ (transitionStep now s).2.2 ++ (sendEmails now post).recoveredNames⟩ := by
  rw [sendEmails_append, sendEmails_cons]
  simp

/-! ## Helper lemmas about the whole-run pipeline -/

theorem probeService_disabled (oracle : Service → Oracles) (s : Service)
    (h : s.enabled = false) :
    probeService oracle s = (s, none) := by
  simp [probeService, h]

theorem probeService_unknownAction (oracle : Service → Oracles) (s : Service)
    (h1 : s.enabled = true) (hg : s.action ≠ "GET") (hp : s.action ≠ "PING")
    (hs : s.action ≠ "SOCKET") :
    probeService oracle s = ({ s with enabled := false }, none) := by
  simp [probeService, h1, hg, hp, hs]

theorem run_services_middle (oracle : Service → Oracles) (now : Nat) (saveOk : Bool)
    (pre post : List Service) (s : Service) :
    (checkServicesRun oracle now saveOk (pre ++ s :: post)).services
      = (checkServicesRun oracle now saveOk pre).services
        ++ (transitionStep now (probeService oracle s).1).1
          :: (checkServicesRun oracle now saveOk post).services := by
  cases saveOk <;> simp [checkServicesRun, sendEmails_append, sendEmails_cons]

theorem run_failedNames_middle (oracle : Service → Oracles) (now : Nat) (saveOk : Bool)
    (pre post : List Service) (s : Service) :
    (checkServicesRun oracle now saveOk (pre ++ s :: post)).failedNames
      = (checkServicesRun oracle now saveOk pre).failedNames
        ++ (transitionStep now (probeService oracle s).1).2.1
          ++ (checkServicesRun oracle now saveOk post).failedNames := by
  cases saveOk <;> simp [checkServicesRun, sendEmails_append, sendEmails_cons]

theorem run_recoveredNames_middle (oracle : Service → Oracles) (now : Nat) (saveOk : Bool)
    (pre post : List Service) (s : Service) :
    (checkServicesRun oracle now saveOk (pre ++ s :: post)).recoveredNames
      = (checkServicesRun oracle now saveOk pre).recoveredNames
        ++ (transitionStep now (probeService oracle s).1).2.2
          ++ (checkServicesRun oracle now saveOk post).recoveredNames := by
  cases saveOk <;> simp [checkServicesRun, sendEmails_append, sendEmails_cons]

theorem run_saved_middle (oracle : Service → Oracles) (now : Nat)
    (pre post : List Service) (s : Service) :
    (checkServicesRun oracle now true (pre ++ s :: post)).saved
      = some ((checkServicesRun oracle now true pre).services.map stripFailed
          ++ stripFailed (transitionStep now (probeService oracle s).1).1
            :: (checkServicesRun oracle now true post).services.map stripFailed) := by
  simp [checkServicesRun, sendEmails_append, sendEmails_cons]

/-! ## Concrete fixtures -/

/-- An enabled GET service in an ongoing, already-alerted outage. -/
def svcOngoing : Service :=
  ⟨1, "plex", "https://plex.example", 32400, "GET", true, some true, true, 4,
   some 10, some 5⟩

/-- An enabled GET service that just failed (not yet alerted). -/
def svcNewFail : Service :=
  ⟨2, "media", "https://media.example", 443, "GET", true, some true, false, 0,
   none, some 5⟩

/-- An enabled SOCKET service that just recovered from an alerted outage. -/
def svcRecover : Service :=
  ⟨3, "nas", "nas.example", 445, "SOCKET", true, some false, true, 2,
   some 9, some 4⟩

/-- An enabled service with an unrecognized action string. -/
def svcUnknown : Service :=
  ⟨4, "mystery", "mystery.example", 80, "UNKNOWN", true, none, false, 0,
   none, none⟩

/-- A disabled service. -/
def svcOff : Service :=
  ⟨5, "paused", "paused.example", 22, "SOCKET", false, none, true, 7,
   some 3, some 2⟩

/-- Oracles under which every attempt of every protocol fails. -/
def downOracle : Service → Oracles :=
  fun _ => ⟨fun _ => .noResponse, fun _ => .probeError, fun _ => .timedOut⟩

/-! ## Claims about the transition pass -/

/-- C1: an enabled service entering the transition pass with
`failed == true` and `triggered == true` (ongoing outage, already alerted)
is passed through unmutated, contributes to neither name list, and — when
no other service shares its name — its name appears in neither the
failed-names list nor the recovered-names list. -/
theorem ongoing_outage_untouched (now : Nat) (pre post : List Service) (s : Service)
    (h1 : s.enabled = true) (h2 : s.failed = some true) (h3 : s.triggered = true) :
    (sendEmails now (pre ++ s :: post)).services
      = (sendEmails now pre).services ++ s :: (sendEmails now post).services
    ∧ (sendEmails now (pre ++ s :: post)).failedNames
      = (sendEmails now pre).failedNames ++ (sendEmails now post).failedNames
    ∧ (sendEmails now (pre ++ s :: post)).recoveredNames
      = (sendEmails now pre).recoveredNames ++ (sendEmails now post).recoveredNames
    ∧ ((∀ t ∈ pre ++ post, t.name ≠ s.name) →
        s.name ∉ (sendEmails now (pre ++ s :: post)).failedNames
        ∧ s.name ∉ (sendEmails now (pre ++ s :: post)).recoveredNames) := by
  rw [sendEmails_middle, transitionStep_ongoing now s h1 h2 h3]
  refine ⟨by simp, by simp, by simp, fun hnames => ?_⟩
  have hpre := sendEmails_names_sub now pre s.name
    (fun t ht => hnames t (List.mem_append_left _ ht))
  have hpost := sendEmails_names_sub now post s.name
    (fun t ht => hnames t (List.mem_append_right _ ht))
  constructor
  · simp [List.mem_append, hpre.1, hpost.1]
  · simp [List.mem_append, hpre.2, hpost.2]

theorem ongoing_outage_untouched_witness :
    (sendEmails 7 ([] ++ svcOngoing :: [])).services
      = (sendEmails 7 []).services ++ svcOngoing :: (sendEmails 7 []).services
    ∧ (sendEmails 7 ([] ++ svcOngoing :: [])).failedNames
      = (sendEmails 7 []).failedNames ++ (sendEmails 7 []).failedNames
    ∧ (sendEmails 7 ([] ++ svcOngoing :: [])).recoveredNames
      = (sendEmails 7 []).recoveredNames ++ (sendEmails 7 []).recoveredNames
    ∧ ((∀ t ∈ ([] ++ [] : List Service), t.name ≠ svcOngoing.name) →
        svcOngoing.name ∉ (sendEmails 7 ([] ++ svcOngoing :: [])).failedNames
        ∧ svcOngoing.name ∉ (sendEmails 7 ([] ++ svcOngoing :: [])).recoveredNames) :=
  ongoing_outage_untouched 7 [] [] svcOngoing rfl rfl rfl

/-- C2: an enabled service entering the transition pass with
`failed == true` and `triggered == false` (new failure) gets
`lastAlertDate = now`, `triggered = true`, `alertCount` incremented by
exactly 1, and contributes its name exactly once to the failed-names list
(when no other service shares its name, the name's count in the list is
exactly 1); it contributes nothing to the recovered-names list. -/
theorem new_failure_alerted (now : Nat) (pre post : List Service) (s : Service)
    (h1 : s.enabled = true) (h2 : s.failed = some true) (h3 : s.triggered = false) :
    (sendEmails now (pre ++ s :: post)).services
      = (sendEmails now pre).services
        ++ { s with lastAlertDate := some now, triggered := true,
                    alertCount := s.alertCount + 1 }
          :: (sendEmails now post).services
    ∧ (sendEmails now (pre ++ s :: post)).failedNames
      = (sendEmails now pre).failedNames ++ s.name :: (sendEmails now post).failedNames
    ∧ (sendEmails now (pre ++ s :: post)).recoveredNames
      = (sendEmails now pre).recoveredNames ++ (sendEmails now post).recoveredNames
    ∧ ((∀ t ∈ pre ++ post, t.name ≠ s.name) →
        ((sendEmails now (pre ++ s :: post)).failedNames).count s.name = 1) := by
  rw [sendEmails_middle, transitionStep_newFailure now s h1 h2 h3]
  refine ⟨by simp, by simp, by simp, fun hnames => ?_⟩
  have hpre := sendEmails_names_sub now pre s.name
    (fun t ht => hnames t (List.mem_append_left _ ht))
  have hpost := sendEmails_names_sub now post s.name
    (fun t ht => hnames t (List.mem_append_right _ ht))
  simp [List.count_append, List.count_eq_zero_of_not_mem hpre.1,
    List.count_eq_zero_of_not_mem hpost.1]

theorem new_failure_alerted_witness :
    (sendEmails 7 ([] ++ svcNewFail :: [])).services
      = (sendEmails 7 []).services
        ++ { svcNewFail with lastAlertDate := some 7, triggered := true,
                             alertCount := svcNewFail.alertCount + 1 }
          :: (sendEmails 7 []).services
    ∧ (sendEmails 7 ([] ++ svcNewFail :: [])).failedNames
      = (sendEmails 7 []).failedNames ++ svcNewFail.name :: (sendEmails 7 []).failedNames
    ∧ (sendEmails 7 ([] ++ svcNewFail :: [])).recoveredNames
      = (sendEmails 7 []).recoveredNames ++ (sendEmails 7 []).recoveredNames
    ∧ ((∀ t ∈ ([] ++ [] : List Service), t.name ≠ svcNewFail.name) →
        ((sendEmails 7 ([] ++ svcNewFail :: [])).failedNames).count svcNewFail.name = 1) :=
  new_failure_alerted 7 [] [] svcNewFail rfl rfl rfl

/-- C3: an enabled service entering the transition pass with
`failed == false` gets `lastSuccessDate = now`; if `triggered` was true it
is a recovery (name contributed to the recovered-names list, `triggered`
reset to false), and if `triggered` was false the service is otherwise
unchanged and — when no other service shares its name — appears in neither
list.  In either case it contributes nothing to the failed-names list. -/
theorem success_transition (now : Nat) (pre post : List Service) (s : Service)
    (h1 : s.enabled = true) (h2 : s.failed = some false) :
    (sendEmails now (pre ++ s :: post)).services
      = (sendEmails now pre).services
        ++ (if s.triggered then
              { s with lastSuccessDate := some now, triggered := false }
            else
              { s with lastSuccessDate := some now })
          :: (sendEmails now post).services
    ∧ (sendEmails now (pre ++ s :: post)).failedNames
      = (sendEmails now pre).failedNames ++ (sendEmails now post).failedNames
    ∧ (sendEmails now (pre ++ s :: post)).recoveredNames
      = (sendEmails now pre).recoveredNames
        ++ (if s.triggered then [s.name] else [])
          ++ (sendEmails now post).recoveredNames
    ∧ (s.triggered = false → (∀ t ∈ pre ++ post, t.name ≠ s.name) →
        s.name ∉ (sendEmails now (pre ++ s :: post)).failedNames
        ∧ s.name ∉ (sendEmails now (pre ++ s :: post)).recoveredNames) := by
  rw [sendEmails_middle, transitionStep_success now s h1 h2]
  refine ⟨?_, ?_, ?_, fun htrig hnames => ?_⟩
  · cases h3 : s.triggered <;> simp [h3]
  · cases h3 : s.triggered <;> simp [h3]
  · cases h3 : s.triggered <;> simp [h3]
  · have hpre := sendEmails_names_sub now pre s.name
      (fun t ht => hnames t (List.mem_append_left _ ht))
    have hpost := sendEmails_names_sub now post s.name
      (fun t ht => hnames t (List.mem_append_right _ ht))
    constructor
    · simp [htrig, List.mem_append, hpre.1, hpost.1]
    · simp [htrig, List.mem_append, hpre.2, hpost.2]

theorem success_transition_witness :
    (sendEmails 7 ([] ++ svcRecover :: [])).services
      = (sendEmails 7 []).services
        ++ (if svcRecover.triggered then
              { svcRecover with lastSuccessDate := some 7, triggered := false }
            else
              { svcRecover with lastSuccessDate := some 7 })
          :: (sendEmails 7 []).services
    ∧ (sendEmails 7 ([] ++ svcRecover :: [])).failedNames
      = (sendEmails 7 []).failedNames ++ (sendEmails 7 []).failedNames
    ∧ (sendEmails 7 ([] ++ svcRecover :: [])).recoveredNames
      = (sendEmails 7 []).recoveredNames
        ++ (if svcRecover.triggered then [svcRecover.name] else [])
          ++ (sendEmails 7 []).recoveredNames
    ∧ (svcRecover.triggered = false → (∀ t ∈ ([] ++ [] : List Service), t.name ≠ svcRecover.name) →
        svcRecover.name ∉ (sendEmails 7 ([] ++ svcRecover :: [])).failedNames
        ∧ svcRecover.name ∉ (sendEmails 7 ([] ++ svcRecover :: [])).recoveredNames) :=
  success_transition 7 [] [] svcRecover rfl rfl

/-! ## Claims about probe classification and the retry loop -/

/-- C6: one HTTP GET attempt is classified as not-failed when a response
arrived with status in [100,500), and as failed when no response arrived
(connection-level error) or the response status is ≥ 500. -/
theorem http_attempt_classification (st : Nat) :
    (100 ≤ st → st < 500 → httpAttemptFailed (.response st) = false)
    ∧ (500 ≤ st → httpAttemptFailed (.response st) = true)
    ∧ httpAttemptFailed .noResponse = true := by
  refine ⟨fun h1 h2 => ?_, fun h => ?_, rfl⟩
  · simp [httpAttemptFailed, h2]
  · simp [httpAttemptFailed, Nat.not_lt.mpr h]

theorem http_attempt_classification_witness :
    httpAttemptFailed (.response 200) = false
    ∧ httpAttemptFailed (.response 503) = true
    ∧ httpAttemptFailed .noResponse = true :=
  ⟨(http_attempt_classification 200).1 (by norm_num) (by norm_num),
   (http_attempt_classification 503).2.1 (by norm_num),
   (http_attempt_classification 503).2.2⟩

/-- C7: for any attempt oracle `af` (`af i = true` meaning attempt i fails):
if attempts 1..k-1 fail and attempt k succeeds with k ≤ RETRY_COUNT, the
retry loop stops right after attempt k with the failed flag false, exactly
k attempts made, and the cumulative backoff equal to
(1 + 2 + ... + (k-1)) · RETRY_BACKOFF_MS (hence ≥ it); if all RETRY_COUNT
attempts fail, the final failed flag is true.  Each probe strategy
(`getEndpoint`, `pingEndpoint`, `socketEndpoint`) stores exactly this
loop's verdict in the service's transient flag. -/
theorem retry_loop_spec (af : Nat → Bool) :
    (∀ k, 1 ≤ k → k ≤ RETRY_COUNT →
      (∀ i, 1 ≤ i → i < k → af i = true) → af k = false →
      (runRetryLoop af).failed = false
      ∧ (runRetryLoop af).attempts = k
      ∧ (runRetryLoop af).sleeps.sum = (List.range k).sum * RETRY_BACKOFF_MS
      ∧ (List.range k).sum * RETRY_BACKOFF_MS ≤ (runRetryLoop af).sleeps.sum)
    ∧ ((∀ i, 1 ≤ i → i ≤ RETRY_COUNT → af i = true) →
        (runRetryLoop af).failed = true)
    ∧ (∀ (A : Nat → HttpOutcome) (s : Service),
        (getEndpoint A s).1.failed
          = some (runRetryLoop (fun i => httpAttemptFailed (A i))).failed)
    ∧ (∀ (A : Nat → PingOutcome) (s : Service),
        (pingEndpoint A s).1.failed
          = some (runRetryLoop (fun i => pingAttemptFailed (A i))).failed)
    ∧ (∀ (A : Nat → SocketOutcome) (s : Service),
        (socketEndpoint A s).1.failed
          = some (runRetryLoop (fun i => socketAttemptFailed (A i))).failed) := by
  refine ⟨?_, ?_, fun A s => rfl, fun A s => rfl, fun A s => rfl⟩
  · intro k hk1 hk3 hfail hsucc
    have hk3' : k ≤ 3 := hk3
    interval_cases k
    · simp [runRetryLoop, retryLoopGo, RETRY_COUNT, hsucc, List.range_succ]
    · have h1 := hfail 1 (by norm_num) (by norm_num)
      simp [runRetryLoop, retryLoopGo, RETRY_COUNT, RETRY_BACKOFF_MS, h1, hsucc,
        List.range_succ]
    · have h1 := hfail 1 (by norm_num) (by norm_num)
      have h2 := hfail 2 (by norm_num) (by norm_num)
      simp [runRetryLoop, retryLoopGo, RETRY_COUNT, RETRY_BACKOFF_MS, h1, h2, hsucc,
        List.range_succ]
  · intro hall
    have h1 := hall 1 (by norm_num) (by norm_num [RETRY_COUNT])
    have h2 := hall 2 (by norm_num) (by norm_num [RETRY_COUNT])
    have h3 := hall 3 (by norm_num) (by norm_num [RETRY_COUNT])
    simp [runRetryLoop, retryLoopGo, RETRY_COUNT, h1, h2, h3]

/-- Attempt oracle for the C7 witness: attempt 1 fails, attempt 2 succeeds. -/
def afOnceFailing : Nat → Bool := fun i => decide (i = 1)

theorem retry_loop_spec_witness :
    (runRetryLoop afOnceFailing).failed = false
    ∧ (runRetryLoop afOnceFailing).attempts = 2
    ∧ (runRetryLoop afOnceFailing).sleeps.sum = (List.range 2).sum * RETRY_BACKOFF_MS
    ∧ (List.range 2).sum * RETRY_BACKOFF_MS ≤ (runRetryLoop afOnceFailing).sleeps.sum :=
  (retry_loop_spec afOnceFailing).1 2 (by norm_num) (by norm_num [RETRY_COUNT])
    (fun i hi1 hi2 => by
      have : i = 1 := by omega
      subst this
      rfl)
    (by decide)

/-- C10: when every attempt fails (so in particular the final allowed
attempt, number RETRY_COUNT, fails), the retry loop performs a backoff
sleep after every attempt including the last: the sleeps are exactly
1·RETRY_BACKOFF_MS, ..., RETRY_COUNT·RETRY_BACKOFF_MS, ending in a final
sleep of RETRY_COUNT·RETRY_BACKOFF_MS after the last attempt.  In general
the sleep following an attempt is skipped only on a successful attempt:
the number of sleeps equals the number of attempts when the loop ends
failed, and one less when it ends on a success. -/
theorem trailing_backoff_sleep (af : Nat → Bool) :
    ((∀ i, 1 ≤ i → i ≤ RETRY_COUNT → af i = true) →
      (runRetryLoop af).sleeps
        = (List.range RETRY_COUNT).map (fun j => (j + 1) * RETRY_BACKOFF_MS)
      ∧ (runRetryLoop af).sleeps.getLast?
        = some (RETRY_COUNT * RETRY_BACKOFF_MS))
    ∧ ((runRetryLoop af).sleeps.length
        = if (runRetryLoop af).failed then (runRetryLoop af).attempts
          else (runRetryLoop af).attempts - 1) := by
  constructor
  · intro hall
    have h1 := hall 1 (by norm_num) (by norm_num [RETRY_COUNT])
    have h2 := hall 2 (by norm_num) (by norm_num [RETRY_COUNT])
    have h3 := hall 3 (by norm_num) (by norm_num [RETRY_COUNT])
    constructor <;>
      simp [runRetryLoop, retryLoopGo, RETRY_COUNT, RETRY_BACKOFF_MS, h1, h2, h3,
        List.range_succ]
  · rcases h1 : af 1 <;> rcases h2 : af 2 <;> rcases h3 : af 3 <;>
      simp [runRetryLoop, retryLoopGo, RETRY_COUNT, h1, h2, h3]

theorem trailing_backoff_sleep_witness :
    (runRetryLoop (fun _ => true)).sleeps
      = (List.range RETRY_COUNT).map (fun j => (j + 1) * RETRY_BACKOFF_MS)
    ∧ (runRetryLoop (fun _ => true)).sleeps.getLast?
      = some (RETRY_COUNT * RETRY_BACKOFF_MS) :=
  (trailing_backoff_sleep (fun _ => true)).1 (fun _ _ _ => rfl)

theorem probeService_name (oracle : Service → Oracles) (t : Service) :
    ((probeService oracle t).1).name = t.name := by
  simp only [probeService, getEndpoint, pingEndpoint, socketEndpoint]
  split_ifs <;> rfl

theorem run_names_sub (oracle : Service → Oracles) (now : Nat) (saveOk : Bool)
    (l : List Service) (x : String) (hx : ∀ t ∈ l, t.name ≠ x) :
    x ∉ (checkServicesRun oracle now saveOk l).failedNames
    ∧ x ∉ (checkServicesRun oracle now saveOk l).recoveredNames := by
  have hmap : ∀ t ∈ l.map (fun u => (probeService oracle u).1), t.name ≠ x := by
    intro t ht
    rcases List.mem_map.mp ht with ⟨u, hu, rfl⟩
    rw [probeService_name]
    exact hx u hu
  cases saveOk <;>
    simpa [checkServicesRun] using
      sendEmails_names_sub now (l.map fun u => (probeService oracle u).1) x hmap

/-! ## Claims about the whole run -/

/-- C4 counterexample: the claim that an unrecognized action disables the
service "for the current run only", its persisted record being unchanged by
the write-back, is false — running the checker over the single enabled
service `svcUnknown` (action "UNKNOWN") writes back its record with
`enabled = false`, a durable change of the persisted record. -/
theorem unknown_action_durably_disabled :
    (checkServicesRun downOracle 7 true [svcUnknown]).saved
      = some [{ svcUnknown with enabled := false }]
    ∧ ({ svcUnknown with enabled := false } : Service) ≠ svcUnknown := by
  exact ⟨rfl, by decide⟩

/-- C4 amended: a service whose action is none of GET, PING, SOCKET is set
`enabled = false` in memory, no probe is attempted against it, it
contributes to neither alert list (and, when no other service shares its
name, its name appears in neither list) — but the disable is not limited to
the current run: the write-back saves its record with `enabled = false`,
durably persisting the disable. -/
theorem unknown_action_run (oracle : Service → Oracles) (now : Nat)
    (pre post : List Service) (s : Service)
    (h1 : s.enabled = true) (hg : s.action ≠ "GET") (hp : s.action ≠ "PING")
    (hs : s.action ≠ "SOCKET") :
    probeService oracle s = ({ s with enabled := false }, none)
    ∧ (checkServicesRun oracle now true (pre ++ s :: post)).services
        = (checkServicesRun oracle now true pre).services
          ++ { s with enabled := false }
            :: (checkServicesRun oracle now true post).services
    ∧ (checkServicesRun oracle now true (pre ++ s :: post)).failedNames
        = (checkServicesRun oracle now true pre).failedNames
          ++ (checkServicesRun oracle now true post).failedNames
    ∧ (checkServicesRun oracle now true (pre ++ s :: post)).recoveredNames
        = (checkServicesRun oracle now true pre).recoveredNames
          ++ (checkServicesRun oracle now true post).recoveredNames
    ∧ (checkServicesRun oracle now true (pre ++ s :: post)).saved
        = some ((checkServicesRun oracle now true pre).services.map stripFailed
            ++ { s with enabled := false, failed := none }
              :: (checkServicesRun oracle now true post).services.map stripFailed)
    ∧ ((∀ t ∈ pre ++ post, t.name ≠ s.name) →
        s.name ∉ (checkServicesRun oracle now true (pre ++ s :: post)).failedNames
        ∧ s.name ∉ (checkServicesRun oracle now true (pre ++ s :: post)).recoveredNames) := by
  have hprobe := probeService_unknownAction oracle s h1 hg hp hs
  have hstep : transitionStep now { s with enabled := false }
      = ({ s with enabled := false }, [], []) :=
    transitionStep_disabled now _ rfl
  have hfn : (checkServicesRun oracle now true (pre ++ s :: post)).failedNames
      = (checkServicesRun oracle now true pre).failedNames
        ++ (checkServicesRun oracle now true post).failedNames := by
    rw [run_failedNames_middle, hprobe]
    simp [hstep]
  have hrn : (checkServicesRun oracle now true (pre ++ s :: post)).recoveredNames
      = (checkServicesRun oracle now true pre).recoveredNames
        ++ (checkServicesRun oracle now true post).recoveredNames := by
    rw [run_recoveredNames_middle, hprobe]
    simp [hstep]
  refine ⟨hprobe, ?_, hfn, hrn, ?_, fun hnames => ?_⟩
  · rw [run_services_middle, hprobe]
    simp [hstep]
  · rw [run_saved_middle, hprobe]
    simp [hstep, stripFailed]
  · have hpre := run_names_sub oracle now true pre s.name
      (fun t ht => hnames t (List.mem_append_left _ ht))
    have hpost := run_names_sub oracle now true post s.name
      (fun t ht => hnames t (List.mem_append_right _ ht))
    rw [hfn, hrn]
    constructor
    · simp [List.mem_append, hpre.1, hpost.1]
    · simp [List.mem_append, hpre.2, hpost.2]

theorem unknown_action_run_witness :
    probeService downOracle svcUnknown = ({ svcUnknown with enabled := false }, none)
    ∧ (checkServicesRun downOracle 7 true ([] ++ svcUnknown :: [])).services
        = (checkServicesRun downOracle 7 true []).services
          ++ { svcUnknown with enabled := false }
            :: (checkServicesRun downOracle 7 true []).services
    ∧ (checkServicesRun downOracle 7 true ([] ++ svcUnknown :: [])).failedNames
        = (checkServicesRun downOracle 7 true []).failedNames
          ++ (checkServicesRun downOracle 7 true []).failedNames
    ∧ (checkServicesRun downOracle 7 true ([] ++ svcUnknown :: [])).recoveredNames
        = (checkServicesRun downOracle 7 true []).recoveredNames
          ++ (checkServicesRun downOracle 7 true []).recoveredNames
    ∧ (checkServicesRun downOracle 7 true ([] ++ svcUnknown :: [])).saved
        = some ((checkServicesRun downOracle 7 true []).services.map stripFailed
            ++ { svcUnknown with enabled := false, failed := none }
              :: (checkServicesRun downOracle 7 true []).services.map stripFailed)
    ∧ ((∀ t ∈ ([] ++ [] : List Service), t.name ≠ svcUnknown.name) →
        svcUnknown.name ∉ (checkServicesRun downOracle 7 true ([] ++ svcUnknown :: [])).failedNames
        ∧ svcUnknown.name ∉ (checkServicesRun downOracle 7 true ([] ++ svcUnknown :: [])).recoveredNames) :=
  unknown_action_run downOracle 7 [] [] svcUnknown rfl (by decide) (by decide) (by decide)

/-- C5 counterexample: with a single enabled service and a failing
`datastore.save`, the run sends no success response at all — the rejection
propagates out of `checkServices` uncaught (there is no try/catch around
`updateServices`), so `res.status(200).send()` is never reached; the claim
that a persistence failure still leaves the run reporting success to its
trigger is false. -/
theorem save_failure_no_success_response :
    (checkServicesRun downOracle 7 false [svcNewFail]).response = none
    ∧ (checkServicesRun downOracle 7 false [svcNewFail]).response ≠ some 200 := by
  exact ⟨rfl, by decide⟩

/-- C5 amended: the trigger is answered 200 exactly when the save succeeds:
for any services, probe outcomes and time — in particular regardless of how
many services failed, which is business data — a successful save yields
response 200 together with a saved snapshot, while a failing save aborts
the run before the response line, yielding neither. -/
theorem run_response_iff_save (oracle : Service → Oracles) (now : Nat)
    (saveOk : Bool) (services : List Service) :
    (checkServicesRun oracle now saveOk services).response
      = (if saveOk then some 200 else none)
    ∧ ((checkServicesRun oracle now saveOk services).saved = none ↔ saveOk = false) := by
  cases saveOk
  · exact ⟨rfl, by simp [checkServicesRun]⟩
  · exact ⟨rfl, by simp [checkServicesRun]⟩

/-- C8: a service with `enabled = false` at the start of a run is never
probed, passes through the run with every field unchanged, contributes to
neither name list (and, when no other service shares its name, its name
appears in neither list), and the record written back for it is
`stripFailed s`, which agrees with `s` on every persisted field. -/
theorem disabled_service_untouched (oracle : Service → Oracles) (now : Nat)
    (saveOk : Bool) (pre post : List Service) (s : Service)
    (h : s.enabled = false) :
    probeService oracle s = (s, none)
    ∧ (checkServicesRun oracle now saveOk (pre ++ s :: post)).services
        = (checkServicesRun oracle now saveOk pre).services
          ++ s :: (checkServicesRun oracle now saveOk post).services
    ∧ (checkServicesRun oracle now saveOk (pre ++ s :: post)).failedNames
        = (checkServicesRun oracle now saveOk pre).failedNames
          ++ (checkServicesRun oracle now saveOk post).failedNames
    ∧ (checkServicesRun oracle now saveOk (pre ++ s :: post)).recoveredNames
        = (checkServicesRun oracle now saveOk pre).recoveredNames
          ++ (checkServicesRun oracle now saveOk post).recoveredNames
    ∧ (checkServicesRun oracle now true (pre ++ s :: post)).saved
        = some ((checkServicesRun oracle now true pre).services.map stripFailed
            ++ stripFailed s
              :: (checkServicesRun oracle now true post).services.map stripFailed)
    ∧ (stripFailed s).triggered = s.triggered
    ∧ (stripFailed s).alertCount = s.alertCount
    ∧ (stripFailed s).lastAlertDate = s.lastAlertDate
    ∧ (stripFailed s).lastSuccessDate = s.lastSuccessDate
    ∧ (stripFailed s).enabled = s.enabled
    ∧ (stripFailed s).action = s.action
    ∧ (stripFailed s).endpoint = s.endpoint
    ∧ (stripFailed s).port = s.port
    ∧ (stripFailed s).name = s.name
    ∧ ((∀ t ∈ pre ++ post, t.name ≠ s.name) →
        s.name ∉ (checkServicesRun oracle now saveOk (pre ++ s :: post)).failedNames
        ∧ s.name ∉ (checkServicesRun oracle now saveOk (pre ++ s :: post)).recoveredNames) := by
  have hprobe := probeService_disabled oracle s h
  have hstep := transitionStep_disabled now s h
  have hfn : (checkServicesRun oracle now saveOk (pre ++ s :: post)).failedNames
      = (checkServicesRun oracle now saveOk pre).failedNames
        ++ (checkServicesRun oracle now saveOk post).failedNames := by
    rw [run_failedNames_middle, hprobe]
    simp [hstep]
  have hrn : (checkServicesRun oracle now saveOk (pre ++ s :: post)).recoveredNames
      = (checkServicesRun oracle now saveOk pre).recoveredNames
        ++ (checkServicesRun oracle now saveOk post).recoveredNames := by
    rw [run_recoveredNames_middle, hprobe]
    simp [hstep]
  refine ⟨hprobe, ?_, hfn, hrn, ?_, rfl, rfl, rfl, rfl, ?_, rfl, rfl, rfl, rfl,
    fun hnames => ?_⟩
  · rw [run_services_middle, hprobe]
    simp [hstep]
  · rw [run_saved_middle, hprobe]
    simp [hstep]
  · simp [stripFailed, h]
  · have hpre := run_names_sub oracle now saveOk pre s.name
      (fun t ht => hnames t (List.mem_append_left _ ht))
    have hpost := run_names_sub oracle now saveOk post s.name
      (fun t ht => hnames t (List.mem_append_right _ ht))
    rw [hfn, hrn]
    constructor
    · simp [List.mem_append, hpre.1, hpost.1]
    · simp [List.mem_append, hpre.2, hpost.2]

theorem disabled_service_untouched_witness :
    probeService downOracle svcOff = (svcOff, none)
    ∧ (checkServicesRun downOracle 7 true ([] ++ svcOff :: [])).services
        = (checkServicesRun downOracle 7 true []).services
          ++ svcOff :: (checkServicesRun downOracle 7 true []).services
    ∧ (checkServicesRun downOracle 7 true ([] ++ svcOff :: [])).failedNames
        = (checkServicesRun downOracle 7 true []).failedNames
          ++ (checkServicesRun downOracle 7 true []).failedNames
    ∧ (checkServicesRun downOracle 7 true ([] ++ svcOff :: [])).recoveredNames
        = (checkServicesRun downOracle 7 true []).recoveredNames
          ++ (checkServicesRun downOracle 7 true []).recoveredNames
    ∧ (checkServicesRun downOracle 7 true ([] ++ svcOff :: [])).saved
        = some ((checkServicesRun downOracle 7 true []).services.map stripFailed
            ++ stripFailed svcOff
              :: (checkServicesRun downOracle 7 true []).services.map stripFailed)
    ∧ (stripFailed svcOff).triggered = svcOff.triggered
    ∧ (stripFailed svcOff).alertCount = svcOff.alertCount
    ∧ (stripFailed svcOff).lastAlertDate = svcOff.lastAlertDate
    ∧ (stripFailed svcOff).lastSuccessDate = svcOff.lastSuccessDate
    ∧ (stripFailed svcOff).enabled = svcOff.enabled
    ∧ (stripFailed svcOff).action = svcOff.action
    ∧ (stripFailed svcOff).endpoint = svcOff.endpoint
    ∧ (stripFailed svcOff).port = svcOff.port
    ∧ (stripFailed svcOff).name = svcOff.name
    ∧ ((∀ t ∈ ([] ++ [] : List Service), t.name ≠ svcOff.name) →
        svcOff.name ∉ (checkServicesRun downOracle 7 true ([] ++ svcOff :: [])).failedNames
        ∧ svcOff.name ∉ (checkServicesRun downOracle 7 true ([] ++ svcOff :: [])).recoveredNames) :=
  disabled_service_untouched downOracle 7 true [] [] svcOff rfl
